import Mathlib

/-!
Verification of the feature-derivation and scoring pipeline in app.py
(ForestFireMLModel).  The Python source is shallowly embedded: JSON scalar
values become the inductive JVal, Python floats become rationals, fallible
coercions return Option, and the request handler predict becomes predictQ,
an Except-valued function parameterised over its external collaborators
(the trained model, the estimator, the encoder vocabularies and the current
UTC month/day, which the source reads from datetime.utcnow()).
-/

namespace ForestFire

/-- Scalar JSON value as seen by the handler after Flask's get_json:
either a number (Python int and float are merged into one exact rational
constructor) or a string.  Absence of a key is modelled by Option at the
field level.  A JSON null coincides with absence for the fields the
handler tests against None — month, day and the four indices — and for
the estimation-branch reads of temp/RH/wind, where data.get of an absent
key yields the same None; a present null for X, Y or a weather field read
with a non-None default (lines 105-106, 138, 146-149) would instead raise
inside int()/float() in Python and is not represented here, a deliberate
restriction of the model. -/
inductive JVal where
  | jnum (q : ℚ)
  | jstr (s : String)
  deriving DecidableEq, Repr

/-- Truncation toward zero, the behaviour of Python int() on a float. -/
def qtrunc (q : ℚ) : Int :=
  if 0 ≤ q then ⌊q⌋ else ⌈q⌉

/-- Digit-string to Nat, failing on the empty string or a non-digit. -/
def digitsToNat? (cs : List Char) : Option Nat :=
  match cs with
  | [] => none
  | _ =>
    cs.foldl
      (fun acc c =>
        acc.bind fun n => if c.isDigit then some (n * 10 + (c.toNat - 48)) else none)
      (some 0)

/-- Decimal-string to rational: optional sign, digits, optional fractional
part.  Models the successful cases of Python float(str) that this handler
can meet; anything else fails, as float() raises ValueError. -/
def strToRat? (s : String) : Option ℚ :=
  let core (t : String) : Option ℚ :=
    match t.splitOn "." with
    | [a] => (digitsToNat? a.toList).map (fun n => (n : ℚ))
    | [a, b] =>
      match digitsToNat? a.toList, digitsToNat? b.toList with
      | some n, some f => some ((n : ℚ) + (f : ℚ) / ((10 : ℚ) ^ b.length))
      | _, _ => none
    | _ => none
  if s.startsWith "-" then (core (s.drop 1)).map Neg.neg
  else if s.startsWith "+" then core (s.drop 1)
  else core s

/-- Python int(v) on a handler value: truncates a number toward zero,
parses an integer literal from a string, raises (none) otherwise. -/
def toInt (v : JVal) : Option Int :=
  match v with
  | .jnum q => some (qtrunc q)
  | .jstr s => s.toInt?

/-- Python float(v) on a handler value: a number is itself, a string is
parsed, anything unparsable raises (none). -/
def toFloat (v : JVal) : Option ℚ :=
  match v with
  | .jnum q => some q
  | .jstr s => strToRat? s

/-- The JSON body of a request to /predict: each recognised key either
absent (or null) or bound to a scalar value. -/
structure Request where
  X : Option JVal := none
  Y : Option JVal := none
  month : Option JVal := none
  day : Option JVal := none
  FFMC : Option JVal := none
  DMC : Option JVal := none
  DC : Option JVal := none
  ISI : Option JVal := none
  temp : Option JVal := none
  RH : Option JVal := none
  wind : Option JVal := none
  rain : Option JVal := none
  deriving DecidableEq, Repr

/-- numpy.clip as used in app.py lines 31-40: minimum(maximum(x, lo), hi). -/
def clip (x lo hi : ℚ) : ℚ := min (max x lo) hi

/-- Python round-half-to-even on an exact rational (app.py line 42 rounds
each index to 2 places; the float is modelled exactly). -/
def pyRound (q : ℚ) : Int :=
  if q - ⌊q⌋ < 1 / 2 then ⌊q⌋
  else if 1 / 2 < q - ⌊q⌋ then ⌊q⌋ + 1
  else if 2 ∣ ⌊q⌋ then ⌊q⌋ else ⌊q⌋ + 1

/-- round(x, 2) of app.py line 42. -/
def round2 (x : ℚ) : ℚ := (pyRound (x * 100) : ℚ) / 100

/-- estimate_fire_indexes, app.py lines 25-42: clamp the four weather
inputs to dataset-like ranges, form the four heuristic combinations, clamp
each to its index range, round each to 2 decimals. -/
def estimate_fire_indexes (temp rh wind rain : ℚ) : ℚ × ℚ × ℚ × ℚ :=
  let temp := clip temp (-10) 60
  let rh := clip rh 0 100
  let wind := clip wind 0 50
  let rain := clip rain 0 500
  let FFMC := clip (20 + temp * 1.6 - rh * 0.15 + wind * 0.6 - rain * 0.1) 18.7 96.2
  let DMC := clip (1 + (100 - rh) * (temp / 30) + wind * 0.5 - rain * 0.2) 1.1 291.3
  let DC := clip (10 + (100 - rh) * (temp / 20) + wind * 0.7 - rain * 0.05) 7.9 860.6
  let ISI := clip (wind * 0.8 + FFMC / 30) 0.0 56.1
  (round2 FFMC, round2 DMC, round2 DC, round2 ISI)

/-- score_to_bucket, app.py lines 45-54: the threshold ladder from an
integer score to (bucket label, color). -/
def score_to_bucket (score : Int) : String × String :=
  if score ≤ 3 then ("Low", "green")
  else if score ≤ 6 then ("Medium", "yellow")
  else if score ≤ 8 then ("High", "orange")
  else ("Extreme", "red")

/-- Index of a label in an encoder vocabulary, none when absent. -/
def lookupIdx (vocab : List String) (s : String) : Option Nat :=
  match vocab with
  | [] => none
  | v :: rest =>
    if v = s then some 0 else (lookupIdx rest s).map Nat.succ

/-- One side of encode_month_day, app.py lines 62-70: a string is looked
up in the trained encoder vocabulary (LabelEncoder.transform raises, hence
none, on an unknown label); any other value goes through Python int(). -/
def encodeOne (vocab : List String) (v : JVal) : Option Int :=
  match v with
  | .jstr s => (lookupIdx vocab s).map Int.ofNat
  | _ => toInt v

/-- encode_month_day, app.py lines 57-71: encode month then day; any
raised exception propagates (none), to be caught by the caller. -/
def encode_month_day (monthVocab dayVocab : List String) (month day : JVal) :
    Option (Int × Int) :=
  match encodeOne monthVocab month, encodeOne dayVocab day with
  | some m, some d => some (m, d)
  | _, _ => none

/-- Modelled from the spec: the trained month encoder artifact
(month_encoder.pkl) is external to the repository; the spec describes it
as a fixed vocabulary of lowercase English month abbreviations learned at
training time, looked up by ordinal.  sklearn's LabelEncoder stores its
classes sorted, so the vocabulary is the twelve abbreviations in
lexicographic order. -/
def monthClasses : List String :=
  ["apr", "aug", "dec", "feb", "jan", "jul", "jun", "mar", "may", "nov", "oct", "sep"]

/-- Modelled from the spec: the trained day encoder artifact
(day_encoder.pkl) is external to the repository; as for the months, the
vocabulary is the seven lowercase weekday abbreviations in lexicographic
order. -/
def dayClasses : List String :=
  ["fri", "mon", "sat", "sun", "thu", "tue", "wed"]

/-- app.py lines 109-117: if either month or day is absent, BOTH are
replaced by the current UTC month and weekday abbreviations (the source
reads datetime.utcnow(); the two now-strings are parameters here). -/
def resolveMonthDay (nowMonth nowDay : String) (month day : Option JVal) :
    JVal × JVal :=
  match month, day with
  | some mv, some dv => (mv, dv)
  | _, _ => (.jstr nowMonth, .jstr nowDay)

/-- Everything predict can return instead of a result: the three
structured 400/500 responses built inside predict, and unhandled, an
exception that escapes predict because the raising coercion sits outside
every try block (Flask then turns it into a generic 500, but no structured
response of this handler is produced). -/
inductive PredictErr where
  | encodingFailed
  | missingMeteorology
  | modelFailed
  | unhandled (site : String)
  deriving DecidableEq, Repr

/-- app.py lines 133-142, the try block of the estimation branch: coerce
temp, RH and wind (an absent key yields float(None), an unparsable value
raises, both caught as the structured missing-meteorology response) and
rain (defaulting to 0.0), then take all four indices from the
estimator. -/
def estimateFromWeather (estimator : ℚ → ℚ → ℚ → ℚ → ℚ × ℚ × ℚ × ℚ)
    (req : Request) : Except PredictErr (JVal × JVal × JVal × JVal) :=
  match req.temp.bind toFloat, req.RH.bind toFloat, req.wind.bind toFloat,
      toFloat (req.rain.getD (.jnum 0)) with
  | some t, some r, some w, some ra =>
    .ok (.jnum (estimator t r w ra).1, .jnum (estimator t r w ra).2.1,
      .jnum (estimator t r w ra).2.2.1, .jnum (estimator t r w ra).2.2.2)
  | _, _, _, _ => .error .missingMeteorology

/-- app.py lines 127-142: fetch the four indices; use them as supplied
when all four are present, otherwise replace all four with the
estimator's output. -/
def resolveIndices (estimator : ℚ → ℚ → ℚ → ℚ → ℚ × ℚ × ℚ × ℚ) (req : Request) :
    Except PredictErr (JVal × JVal × JVal × JVal) :=
  match req.FFMC, req.DMC, req.DC, req.ISI with
  | some f, some m, some c, some i => .ok (f, m, c, i)
  | _, _, _, _ => estimateFromWeather estimator req

/-- app.py lines 146-149: the echo weather values, with defaults
temp 20.0, RH 40.0, wind 1.0, rain 0.0; these float() calls sit outside
every try block, so a failure is an unhandled exception. -/
def weatherDefaults (req : Request) : Option (ℚ × ℚ × ℚ × ℚ) :=
  match toFloat (req.temp.getD (.jnum 20)), toFloat (req.RH.getD (.jnum 40)),
      toFloat (req.wind.getD (.jnum 1)), toFloat (req.rain.getD (.jnum 0)) with
  | some t, some r, some w, some ra => some (t, r, w, ra)
  | _, _, _, _ => none

/-- app.py lines 155-158: float() applied to each index value while the
feature list is built, outside every try block. -/
def coerceIndexFloats (ffmc dmc dc isi : JVal) : Option (ℚ × ℚ × ℚ × ℚ) :=
  match toFloat ffmc, toFloat dmc, toFloat dc, toFloat isi with
  | some a, some b, some c, some d => some (a, b, c, d)
  | _, _, _, _ => none

/-- The ordered feature list of app.py lines 151-164: X, Y, encoded month,
encoded day, FFMC, DMC, DC, ISI, temp, RH, wind, rain. -/
def buildFeatures (X_val Y_val month_enc day_enc : Int) (f dm dcv iv t rh w ra : ℚ) :
    List ℚ :=
  [(X_val : ℚ), (Y_val : ℚ), (month_enc : ℚ), (day_enc : ℚ),
    f, dm, dcv, iv, t, rh, w, ra]

/-- The features_used object of the success response, app.py lines
179-184.  The index fields echo the value predict holds at that point: the
raw request value when supplied, the estimator's float when estimated. -/
structure FeaturesUsed where
  X : Int
  Y : Int
  month_enc : Int
  day_enc : Int
  FFMC : JVal
  DMC : JVal
  DC : JVal
  ISI : JVal
  temp : ℚ
  RH : ℚ
  wind : ℚ
  rain : ℚ
  deriving DecidableEq, Repr

/-- The success response of predict, app.py lines 175-185, together with
the feature vector that was passed to the model at line 168. -/
structure PredictOk where
  score : Int
  bucket : String
  color : String
  features : List ℚ
  features_used : FeaturesUsed
  deriving DecidableEq, Repr

/-- predict, app.py lines 99-185, from the parsed JSON body on.  External
collaborators are parameters: the two encoder vocabularies, the estimator
(estimate_fire_indexes in the deployed code; a parameter so that bypassing
it is provable), the trained model, and the current UTC month/day strings.
Structured error responses and escaped exceptions are the PredictErr
outcomes. -/
def predictQ (monthVocab dayVocab : List String)
    (estimator : ℚ → ℚ → ℚ → ℚ → ℚ × ℚ × ℚ × ℚ)
    (mdl : List ℚ → Except String Int)
    (nowMonth nowDay : String) (req : Request) : Except PredictErr PredictOk :=
  match toInt (req.X.getD (.jnum 5)) with
  | none => .error (.unhandled "int(X)")
  | some X_val =>
  match toInt (req.Y.getD (.jnum 5)) with
  | none => .error (.unhandled "int(Y)")
  | some Y_val =>
  match encode_month_day monthVocab dayVocab
      (resolveMonthDay nowMonth nowDay req.month req.day).1
      (resolveMonthDay nowMonth nowDay req.month req.day).2 with
  | none => .error .encodingFailed
  | some (month_enc, day_enc) =>
  match resolveIndices estimator req with
  | .error e => .error e
  | .ok (ffmc, dmc, dc, isi) =>
  match weatherDefaults req with
  | none => .error (.unhandled "float(weather)")
  | some (temp_val, rh_val, wind_val, rain_val) =>
  match coerceIndexFloats ffmc dmc dc isi with
  | none => .error (.unhandled "float(index)")
  | some (f, dm, dcv, iv) =>
  match mdl (buildFeatures X_val Y_val month_enc day_enc
      f dm dcv iv temp_val rh_val wind_val rain_val) with
  | .error _ => .error .modelFailed
  | .ok pred =>
    .ok { score := pred
          bucket := (score_to_bucket pred).1
          color := (score_to_bucket pred).2
          features := buildFeatures X_val Y_val month_enc day_enc
            f dm dcv iv temp_val rh_val wind_val rain_val
          features_used :=
            { X := X_val, Y := Y_val, month_enc := month_enc, day_enc := day_enc
              FFMC := ffmc, DMC := dmc, DC := dc, ISI := isi
              temp := temp_val, RH := rh_val
              wind := wind_val, rain := rain_val } }

/-- Coercibility of every value a request supplies for the fields whose
coercions in predict sit outside all try blocks (X, Y at line 105-106, the
four indices at lines 155-158, the four weather echoes at lines 146-149).
Absent fields take the coercible defaults, so only supplied values are
constrained. -/
def wellFormed (req : Request) : Bool :=
  (toInt (req.X.getD (.jnum 5))).isSome && (toInt (req.Y.getD (.jnum 5))).isSome &&
  (toFloat (req.FFMC.getD (.jnum 0))).isSome && (toFloat (req.DMC.getD (.jnum 0))).isSome &&
  (toFloat (req.DC.getD (.jnum 0))).isSome && (toFloat (req.ISI.getD (.jnum 0))).isSome &&
  (toFloat (req.temp.getD (.jnum 20))).isSome && (toFloat (req.RH.getD (.jnum 40))).isSome &&
  (toFloat (req.wind.getD (.jnum 1))).isSome && (toFloat (req.rain.getD (.jnum 0))).isSome

/-- X and Y (with their defaults) coerce to int, app.py lines 105-106. -/
def xyOk (req : Request) : Bool :=
  (toInt (req.X.getD (.jnum 5))).isSome && (toInt (req.Y.getD (.jnum 5))).isSome

/-- Month/day encoding succeeds after the default resolution. -/
def encodeOk (monthVocab dayVocab : List String) (nowMonth nowDay : String)
    (req : Request) : Bool :=
  (encode_month_day monthVocab dayVocab
    (resolveMonthDay nowMonth nowDay req.month req.day).1
    (resolveMonthDay nowMonth nowDay req.month req.day).2).isSome

/-- The gate of app.py line 132: at least one index absent. -/
def anyIndexMissing (req : Request) : Bool :=
  req.FFMC.isNone || req.DMC.isNone || req.DC.isNone || req.ISI.isNone

/-- The coercions of app.py lines 135-138 all succeed: temp, RH and wind
present and coercible, rain absent or coercible. -/
def weatherDerivable (req : Request) : Bool :=
  (req.temp.bind toFloat).isSome && (req.RH.bind toFloat).isSome &&
  (req.wind.bind toFloat).isSome && (toFloat (req.rain.getD (.jnum 0))).isSome

/-- A stub trained model that always scores 5, for concrete runs. -/
def constModel (s : Int) : List ℚ → Except String Int := fun _ => .ok s

/-- Request supplying all four indices with FFMC far above its clamp
range. -/
def reqOutOfRangeFFMC : Request :=
  { month := some (.jstr "aug"), day := some (.jstr "sun")
    FFMC := some (.jnum 1000), DMC := some (.jnum 50)
    DC := some (.jnum 300), ISI := some (.jnum 10) }

/-- Request with a supplied month but an absent day. -/
def reqMonthOnly : Request :=
  { month := some (.jstr "aug")
    FFMC := some (.jnum 85), DMC := some (.jnum 50)
    DC := some (.jnum 300), ISI := some (.jnum 10) }

/-- Request whose X cannot be coerced to an integer. -/
def reqBadX : Request :=
  { X := some (.jstr "abc"), month := some (.jstr "aug"), day := some (.jstr "sun")
    FFMC := some (.jnum 85), DMC := some (.jnum 50)
    DC := some (.jnum 300), ISI := some (.jnum 10) }

/-- Request passing month as an integer far beyond the vocabulary size. -/
def reqIntMonth99 : Request :=
  { month := some (.jnum 99), day := some (.jstr "sun")
    FFMC := some (.jnum 85), DMC := some (.jnum 50)
    DC := some (.jnum 300), ISI := some (.jnum 10) }

/-- Request with an unknown textual month and an absent day. -/
def reqUnknownMonthNoDay : Request :=
  { month := some (.jstr "xyz")
    FFMC := some (.jnum 85), DMC := some (.jnum 50)
    DC := some (.jnum 300), ISI := some (.jnum 10) }

/-- Request with an unknown textual month and a known day, both present. -/
def reqUnknownMonth : Request :=
  { month := some (.jstr "xyz"), day := some (.jstr "sun")
    FFMC := some (.jnum 85), DMC := some (.jnum 50)
    DC := some (.jnum 300), ISI := some (.jnum 10) }

/-- Request with neither indices nor weather fields. -/
def reqNoWeather : Request :=
  { month := some (.jstr "aug"), day := some (.jstr "sun") }

/-- Request with indices absent, derivable temp/RH/wind and an
uncoercible rain value. -/
def reqBadRain : Request :=
  { month := some (.jstr "aug"), day := some (.jstr "sun")
    temp := some (.jnum 30), RH := some (.jnum 40)
    wind := some (.jnum 5), rain := some (.jstr "x") }

/-- Request with indices absent and estimation inputs supplied. -/
def reqEstimate : Request :=
  { month := some (.jstr "aug"), day := some (.jstr "sun")
    temp := some (.jnum 0), RH := some (.jnum 100), wind := some (.jnum 0) }

/-- Request supplying everything the verbatim-index path needs. -/
def reqVerbatim : Request :=
  { X := some (.jnum 4), Y := some (.jnum 5)
    month := some (.jstr "aug"), day := some (.jstr "sun")
    FFMC := some (.jnum 85), DMC := some (.jnum 50)
    DC := some (.jnum 300), ISI := some (.jnum 10) }

/-- The success record produced for reqVerbatim under constModel 5. -/
def okVerbatim : PredictOk :=
  { score := 5, bucket := "Medium", color := "yellow"
    features := [4, 5, 1, 3, 85, 50, 300, 10, 20, 40, 1, 0]
    features_used :=
      { X := 4, Y := 5, month_enc := 1, day_enc := 3
        FFMC := .jnum 85, DMC := .jnum 50, DC := .jnum 300, ISI := .jnum 10
        temp := 20, RH := 40, wind := 1, rain := 0 } }

/-- The success record produced for reqEstimate under constModel 2. -/
def okEstimate : PredictOk :=
  { score := 2, bucket := "Low", color := "green"
    features := [5, 5, 1, 3, 18.7, 1.1, 10, 0.62, 0, 100, 0, 0]
    features_used :=
      { X := 5, Y := 5, month_enc := 1, day_enc := 3
        FFMC := .jnum 18.7, DMC := .jnum 1.1, DC := .jnum 10, ISI := .jnum 0.62
        temp := 0, RH := 100, wind := 0, rain := 0 } }

end ForestFire

namespace ForestFire

/-- Claim C1: score_to_bucket is a deterministic total function on the
integers mapping s ≤ 3 to Low/green, 3 < s ≤ 6 to Medium/yellow,
6 < s ≤ 8 to High/orange and 8 < s to Extreme/red, with the exact
boundary values 3/4/6/7/8/9 behaving as documented and out-of-range
scores resolving through the same ladder. -/
theorem score_to_bucket_ladder (s : Int) :
    (s ≤ 3 → score_to_bucket s = ("Low", "green")) ∧
    (3 < s → s ≤ 6 → score_to_bucket s = ("Medium", "yellow")) ∧
    (6 < s → s ≤ 8 → score_to_bucket s = ("High", "orange")) ∧
    (8 < s → score_to_bucket s = ("Extreme", "red")) ∧
    score_to_bucket 3 = ("Low", "green") ∧
    score_to_bucket 4 = ("Medium", "yellow") ∧
    score_to_bucket 6 = ("Medium", "yellow") ∧
    score_to_bucket 7 = ("High", "orange") ∧
    score_to_bucket 8 = ("High", "orange") ∧
    score_to_bucket 9 = ("Extreme", "red") ∧
    score_to_bucket 0 = ("Low", "green") ∧
    score_to_bucket (-5) = ("Low", "green") ∧
    score_to_bucket 1000 = ("Extreme", "red") := by
  unfold score_to_bucket
  refine ⟨?_, ?_, ?_, ?_, ?_, ?_, ?_, ?_, ?_, ?_, ?_, ?_, ?_⟩ <;>
    first
      | decide
      | (intro h1; rw [if_pos (by omega)])
      | (intro h1 h2; rw [if_neg (by omega), if_pos (by omega)])
      | (intro h1 h2; rw [if_neg (by omega), if_neg (by omega), if_pos (by omega)])
      | (intro h1; rw [if_neg (by omega), if_neg (by omega), if_neg (by omega)])

/-- Witness for score_to_bucket_ladder: instantiating the ladder at the
in-band scores 2, 4, 7 and 9 discharges each guarded branch concretely. -/
theorem score_to_bucket_ladder_witness :
    score_to_bucket 2 = ("Low", "green") ∧
    score_to_bucket 4 = ("Medium", "yellow") ∧
    score_to_bucket 7 = ("High", "orange") ∧
    score_to_bucket 9 = ("Extreme", "red") :=
  ⟨(score_to_bucket_ladder 2).1 (by decide),
   (score_to_bucket_ladder 4).2.1 (by decide) (by decide),
   (score_to_bucket_ladder 7).2.2.1 (by decide) (by decide),
   (score_to_bucket_ladder 9).2.2.2.1 (by decide)⟩

theorem pyRound_ge (a : Int) (q : ℚ) (h : (a : ℚ) ≤ q) : a ≤ pyRound q := by
  have hf : a ≤ ⌊q⌋ := Int.le_floor.mpr h
  unfold pyRound
  split_ifs <;> omega

theorem pyRound_le (b : Int) (q : ℚ) (h : q ≤ (b : ℚ)) : pyRound q ≤ b := by
  have hfb : ⌊q⌋ ≤ b := by simpa using Int.floor_le_floor h
  unfold pyRound
  split_ifs with h1 h2 h3
  · exact hfb
  all_goals
    have hh : 1 / 2 ≤ q - (⌊q⌋ : ℚ) := le_of_not_lt h1
    have hfl : (⌊q⌋ : ℚ) ≤ q := Int.floor_le q
    have hql : (⌊q⌋ : ℚ) < (b : ℚ) := by linarith
    have hqi : ⌊q⌋ < b := by exact_mod_cast hql
    omega

theorem round2_mem (a b : Int) (x : ℚ) (h1 : (a : ℚ) / 100 ≤ x)
    (h2 : x ≤ (b : ℚ) / 100) :
    (a : ℚ) / 100 ≤ round2 x ∧ round2 x ≤ (b : ℚ) / 100 := by
  have ha : (a : ℚ) ≤ x * 100 := by linarith
  have hb : x * 100 ≤ (b : ℚ) := by linarith
  have l1 : (a : ℚ) ≤ (pyRound (x * 100) : ℚ) := by
    exact_mod_cast pyRound_ge a (x * 100) ha
  have l2 : ((pyRound (x * 100) : ℚ)) ≤ (b : ℚ) := by
    exact_mod_cast pyRound_le b (x * 100) hb
  unfold round2
  constructor <;> linarith

theorem clip_mem (x lo hi : ℚ) (h : lo ≤ hi) :
    lo ≤ clip x lo hi ∧ clip x lo hi ≤ hi :=
  ⟨le_min (le_max_right x lo) h, min_le_right _ _⟩

theorem clip_idem (x lo hi : ℚ) (h : lo ≤ hi) :
    clip (clip x lo hi) lo hi = clip x lo hi := by
  unfold clip
  rw [max_eq_left (le_min (le_max_right x lo) h)]
  exact min_eq_left (min_le_right _ _)

theorem round2_clip_mem (x lo hi : ℚ) (a b : Int) (ea : (a : ℚ) / 100 = lo)
    (eb : (b : ℚ) / 100 = hi) (h : lo ≤ hi) :
    lo ≤ round2 (clip x lo hi) ∧ round2 (clip x lo hi) ≤ hi := by
  obtain ⟨c1, c2⟩ := clip_mem x lo hi h
  subst ea
  subst eb
  exact round2_mem a b _ c1 c2

theorem estimate_in_range (t r w ra : ℚ) :
    (18.7 ≤ (estimate_fire_indexes t r w ra).1 ∧
      (estimate_fire_indexes t r w ra).1 ≤ 96.2) ∧
    (1.1 ≤ (estimate_fire_indexes t r w ra).2.1 ∧
      (estimate_fire_indexes t r w ra).2.1 ≤ 291.3) ∧
    (7.9 ≤ (estimate_fire_indexes t r w ra).2.2.1 ∧
      (estimate_fire_indexes t r w ra).2.2.1 ≤ 860.6) ∧
    (0.0 ≤ (estimate_fire_indexes t r w ra).2.2.2 ∧
      (estimate_fire_indexes t r w ra).2.2.2 ≤ 56.1) := by
  unfold estimate_fire_indexes
  dsimp only
  refine ⟨?_, ?_, ?_, ?_⟩
  · exact round2_clip_mem _ 18.7 96.2 1870 9620 (by norm_num) (by norm_num) (by norm_num)
  · exact round2_clip_mem _ 1.1 291.3 110 29130 (by norm_num) (by norm_num) (by norm_num)
  · exact round2_clip_mem _ 7.9 860.6 790 86060 (by norm_num) (by norm_num) (by norm_num)
  · exact round2_clip_mem _ 0.0 56.1 0 5610 (by norm_num) (by norm_num) (by norm_num)

/-- Claim C4: estimate_fire_indexes first clamps its inputs to the
physical ranges (so it is invariant under pre-clamping), and each of the
four returned indices, a clamped and 2-decimal-rounded heuristic
combination, lies within its index-specific valid range for every
rational input. -/
theorem estimate_fire_indexes_spec (t r w ra : ℚ) :
    estimate_fire_indexes t r w ra =
      estimate_fire_indexes (clip t (-10) 60) (clip r 0 100) (clip w 0 50)
        (clip ra 0 500) ∧
    (18.7 ≤ (estimate_fire_indexes t r w ra).1 ∧
      (estimate_fire_indexes t r w ra).1 ≤ 96.2) ∧
    (1.1 ≤ (estimate_fire_indexes t r w ra).2.1 ∧
      (estimate_fire_indexes t r w ra).2.1 ≤ 291.3) ∧
    (7.9 ≤ (estimate_fire_indexes t r w ra).2.2.1 ∧
      (estimate_fire_indexes t r w ra).2.2.1 ≤ 860.6) ∧
    (0.0 ≤ (estimate_fire_indexes t r w ra).2.2.2 ∧
      (estimate_fire_indexes t r w ra).2.2.2 ≤ 56.1) := by
  refine ⟨?_, estimate_in_range t r w ra⟩
  unfold estimate_fire_indexes
  dsimp only
  rw [clip_idem t (-10) 60 (by norm_num), clip_idem r 0 100 (by norm_num),
    clip_idem w 0 50 (by norm_num), clip_idem ra 0 500 (by norm_num)]

theorem coerceIndexFloats_some (a b c d : JVal) (f dm dcv iv : ℚ)
    (h : coerceIndexFloats a b c d = some (f, dm, dcv, iv)) :
    toFloat a = some f ∧ toFloat b = some dm ∧
    toFloat c = some dcv ∧ toFloat d = some iv := by
  unfold coerceIndexFloats at h
  split at h
  · rename_i ha hb hc hd
    cases h
    exact ⟨ha, hb, hc, hd⟩
  · exact Option.noConfusion h

theorem weatherDefaults_some (req : Request) (t rh w ra : ℚ)
    (h : weatherDefaults req = some (t, rh, w, ra)) :
    toFloat (req.temp.getD (.jnum 20)) = some t ∧
    toFloat (req.RH.getD (.jnum 40)) = some rh ∧
    toFloat (req.wind.getD (.jnum 1)) = some w ∧
    toFloat (req.rain.getD (.jnum 0)) = some ra := by
  unfold weatherDefaults at h
  split at h
  · rename_i ht hr hw hra
    cases h
    exact ⟨ht, hr, hw, hra⟩
  · exact Option.noConfusion h

theorem predictQ_ok_iff (mv dv : List String)
    (est : ℚ → ℚ → ℚ → ℚ → ℚ × ℚ × ℚ × ℚ) (mdl : List ℚ → Except String Int)
    (nM nD : String) (req : Request) (r : PredictOk) :
    predictQ mv dv est mdl nM nD req = .ok r ↔
      ∃ X_val Y_val month_enc day_enc ffmc dmc dc isi t rh w ra f dm dcv iv pred,
        toInt (req.X.getD (.jnum 5)) = some X_val ∧
        toInt (req.Y.getD (.jnum 5)) = some Y_val ∧
        encode_month_day mv dv (resolveMonthDay nM nD req.month req.day).1
          (resolveMonthDay nM nD req.month req.day).2 = some (month_enc, day_enc) ∧
        resolveIndices est req = .ok (ffmc, dmc, dc, isi) ∧
        weatherDefaults req = some (t, rh, w, ra) ∧
        coerceIndexFloats ffmc dmc dc isi = some (f, dm, dcv, iv) ∧
        mdl (buildFeatures X_val Y_val month_enc day_enc f dm dcv iv t rh w ra) =
          .ok pred ∧
        r = { score := pred
              bucket := (score_to_bucket pred).1
              color := (score_to_bucket pred).2
              features := buildFeatures X_val Y_val month_enc day_enc f dm dcv iv t rh w ra
              features_used :=
                { X := X_val, Y := Y_val, month_enc := month_enc, day_enc := day_enc
                  FFMC := ffmc, DMC := dmc, DC := dc, ISI := isi
                  temp := t, RH := rh, wind := w, rain := ra } } := by
  constructor
  · intro h
    unfold predictQ at h
    split at h
    · exact Except.noConfusion h
    rename_i X_val hX
    split at h
    · exact Except.noConfusion h
    rename_i Y_val hY
    split at h
    · exact Except.noConfusion h
    rename_i me de hEnc
    split at h
    · exact Except.noConfusion h
    rename_i ffmc dmc dc isi hRes
    split at h
    · exact Except.noConfusion h
    rename_i t rh w ra hW
    split at h
    · exact Except.noConfusion h
    rename_i f dm dcv iv hC
    split at h
    · exact Except.noConfusion h
    rename_i pred hM
    cases h
    exact ⟨X_val, Y_val, me, de, ffmc, dmc, dc, isi, t, rh, w, ra, f, dm, dcv, iv, pred,
      hX, hY, hEnc, hRes, hW, hC, hM, rfl⟩
  · rintro ⟨X_val, Y_val, me, de, ffmc, dmc, dc, isi, t, rh, w, ra, f, dm, dcv, iv, pred,
      hX, hY, hEnc, hRes, hW, hC, hM, rfl⟩
    unfold predictQ
    simp only [hX, hY, hEnc, hRes, hW, hC, hM]

theorem resolveIndices_supplied (est : ℚ → ℚ → ℚ → ℚ → ℚ × ℚ × ℚ × ℚ)
    (req : Request) (f m c i : JVal)
    (hf : req.FFMC = some f) (hm : req.DMC = some m)
    (hc : req.DC = some c) (hi : req.ISI = some i) :
    resolveIndices est req = .ok (f, m, c, i) := by
  unfold resolveIndices
  rw [hf, hm, hc, hi]

theorem estimateFromWeather_ok (est : ℚ → ℚ → ℚ → ℚ → ℚ × ℚ × ℚ × ℚ)
    (req : Request) (v₁ v₂ v₃ v₄ : JVal)
    (h : estimateFromWeather est req = .ok (v₁, v₂, v₃, v₄)) :
    ∃ t rh w ra,
      req.temp.bind toFloat = some t ∧ req.RH.bind toFloat = some rh ∧
      req.wind.bind toFloat = some w ∧ toFloat (req.rain.getD (.jnum 0)) = some ra ∧
      v₁ = .jnum (est t rh w ra).1 ∧ v₂ = .jnum (est t rh w ra).2.1 ∧
      v₃ = .jnum (est t rh w ra).2.2.1 ∧ v₄ = .jnum (est t rh w ra).2.2.2 := by
  unfold estimateFromWeather at h
  split at h
  · rename_i t rh w ra ht hr hw hra
    cases h
    exact ⟨t, rh, w, ra, ht, hr, hw, hra, rfl, rfl, rfl, rfl⟩
  · exact Except.noConfusion h

theorem resolveIndices_estimated (est : ℚ → ℚ → ℚ → ℚ → ℚ × ℚ × ℚ × ℚ)
    (req : Request) (v₁ v₂ v₃ v₄ : JVal)
    (hmiss : req.FFMC = none ∨ req.DMC = none ∨ req.DC = none ∨ req.ISI = none)
    (h : resolveIndices est req = .ok (v₁, v₂, v₃, v₄)) :
    ∃ t rh w ra,
      req.temp.bind toFloat = some t ∧ req.RH.bind toFloat = some rh ∧
      req.wind.bind toFloat = some w ∧ toFloat (req.rain.getD (.jnum 0)) = some ra ∧
      v₁ = .jnum (est t rh w ra).1 ∧ v₂ = .jnum (est t rh w ra).2.1 ∧
      v₃ = .jnum (est t rh w ra).2.2.1 ∧ v₄ = .jnum (est t rh w ra).2.2.2 := by
  unfold resolveIndices at h
  split at h
  · rename_i hf hm hc hi
    rcases hmiss with e | e | e | e <;> simp_all
  · exact estimateFromWeather_ok est req v₁ v₂ v₃ v₄ h

theorem estimateFromWeather_missing_iff (est : ℚ → ℚ → ℚ → ℚ → ℚ × ℚ × ℚ × ℚ)
    (req : Request) :
    estimateFromWeather est req = .error .missingMeteorology ↔
      weatherDerivable req = false := by
  unfold estimateFromWeather weatherDerivable
  rcases ht : req.temp.bind toFloat with _ | t <;>
    rcases hr : req.RH.bind toFloat with _ | rh <;>
    rcases hw : req.wind.bind toFloat with _ | w <;>
    rcases hra : toFloat (req.rain.getD (.jnum 0)) with _ | ra <;>
    simp

theorem estimateFromWeather_error (est : ℚ → ℚ → ℚ → ℚ → ℚ × ℚ × ℚ × ℚ)
    (req : Request) (e : PredictErr)
    (h : estimateFromWeather est req = .error e) : e = .missingMeteorology := by
  unfold estimateFromWeather at h
  split at h
  · exact Except.noConfusion h
  · cases h
    rfl

theorem resolveIndices_missing_iff (est : ℚ → ℚ → ℚ → ℚ → ℚ × ℚ × ℚ × ℚ)
    (req : Request) :
    resolveIndices est req = .error .missingMeteorology ↔
      anyIndexMissing req = true ∧ weatherDerivable req = false := by
  unfold resolveIndices anyIndexMissing
  rcases hf : req.FFMC with _ | f <;> rcases hm : req.DMC with _ | m <;>
    rcases hc : req.DC with _ | c <;> rcases hi : req.ISI with _ | i <;>
    simp [estimateFromWeather_missing_iff]

theorem resolveIndices_error (est : ℚ → ℚ → ℚ → ℚ → ℚ × ℚ × ℚ × ℚ)
    (req : Request) (e : PredictErr)
    (h : resolveIndices est req = .error e) : e = .missingMeteorology := by
  unfold resolveIndices at h
  split at h
  · exact Except.noConfusion h
  · exact estimateFromWeather_error est req e h

/-- Claim C2 counterexample: a request that supplies all four indices with
FFMC = 1000 reaches the model with 1000 in the FFMC slot of the feature
vector, far outside the documented clamp range [18.7, 96.2]; supplied
indices are used verbatim with no clamping. -/
theorem supplied_index_escapes_clamp :
    (predictQ monthClasses dayClasses estimate_fire_indexes (constModel 5) "oct" "sun"
        reqOutOfRangeFFMC).map (fun r => r.features.getD 4 0) = .ok 1000 ∧
    ¬ ((1000 : ℚ) ≤ 96.2) := by
  constructor
  · with_unfolding_all rfl
  · norm_num

/-- Claim C2 (amended): when the estimation branch is taken (at least one
index absent from the request) every successful prediction carries
FFMC/DMC/DC/ISI feature values inside their documented clamp ranges;
indices supplied by the caller are used verbatim and are not clamped. -/
theorem estimated_indices_in_clamp_range (mv dv : List String)
    (mdl : List ℚ → Except String Int) (nM nD : String) (req : Request)
    (r : PredictOk)
    (hmiss : req.FFMC = none ∨ req.DMC = none ∨ req.DC = none ∨ req.ISI = none)
    (h : predictQ mv dv estimate_fire_indexes mdl nM nD req = .ok r) :
    (18.7 ≤ r.features.getD 4 0 ∧ r.features.getD 4 0 ≤ 96.2) ∧
    (1.1 ≤ r.features.getD 5 0 ∧ r.features.getD 5 0 ≤ 291.3) ∧
    (7.9 ≤ r.features.getD 6 0 ∧ r.features.getD 6 0 ≤ 860.6) ∧
    (0.0 ≤ r.features.getD 7 0 ∧ r.features.getD 7 0 ≤ 56.1) := by
  rcases (predictQ_ok_iff mv dv estimate_fire_indexes mdl nM nD req r).mp h with
    ⟨X_val, Y_val, me, de, ffmc, dmc, dc, isi, t, rh, w, ra, f, dm, dcv, iv, pred,
      hX, hY, hEnc, hRes, hW, hC, hM, rfl⟩
  obtain ⟨t', rh', w', ra', ht, hr, hw, hra, e1, e2, e3, e4⟩ :=
    resolveIndices_estimated estimate_fire_indexes req ffmc dmc dc isi hmiss hRes
  subst e1; subst e2; subst e3; subst e4
  obtain ⟨c1, c2, c3, c4⟩ := coerceIndexFloats_some _ _ _ _ _ _ _ _ hC
  simp only [toFloat, Option.some.injEq] at c1 c2 c3 c4
  subst c1; subst c2; subst c3; subst c4
  have hb := estimate_in_range t' rh' w' ra'
  simpa [buildFeatures, List.getD] using hb

/-- Witness for estimated_indices_in_clamp_range at a concrete
estimation-branch request. -/
theorem estimated_indices_in_clamp_range_witness :
    (18.7 ≤ okEstimate.features.getD 4 0 ∧ okEstimate.features.getD 4 0 ≤ 96.2) ∧
    (1.1 ≤ okEstimate.features.getD 5 0 ∧ okEstimate.features.getD 5 0 ≤ 291.3) ∧
    (7.9 ≤ okEstimate.features.getD 6 0 ∧ okEstimate.features.getD 6 0 ≤ 860.6) ∧
    (0.0 ≤ okEstimate.features.getD 7 0 ∧ okEstimate.features.getD 7 0 ≤ 56.1) :=
  estimated_indices_in_clamp_range monthClasses dayClasses (constModel 2) "oct" "sun"
    reqEstimate okEstimate (Or.inl rfl) (by with_unfolding_all rfl)

/-- Claim C3: if all four indices are supplied the estimator is bypassed
entirely (the outcome is the same for any two estimators, and
features_used echoes the supplied values verbatim); if any index is
absent, a successful prediction carries the estimator's output for all
four indices, computed from the coerced temp/RH/wind/rain values. -/
theorem index_gate_all_or_nothing (mv dv : List String)
    (est₁ est₂ : ℚ → ℚ → ℚ → ℚ → ℚ × ℚ × ℚ × ℚ)
    (mdl : List ℚ → Except String Int) (nM nD : String) (req : Request) :
    ((∃ f m c i, req.FFMC = some f ∧ req.DMC = some m ∧
        req.DC = some c ∧ req.ISI = some i) →
      predictQ mv dv est₁ mdl nM nD req = predictQ mv dv est₂ mdl nM nD req ∧
      ∀ r, predictQ mv dv est₁ mdl nM nD req = .ok r →
        req.FFMC = some r.features_used.FFMC ∧ req.DMC = some r.features_used.DMC ∧
        req.DC = some r.features_used.DC ∧ req.ISI = some r.features_used.ISI) ∧
    ((req.FFMC = none ∨ req.DMC = none ∨ req.DC = none ∨ req.ISI = none) →
      ∀ r, predictQ mv dv est₁ mdl nM nD req = .ok r →
        ∃ t rh w ra,
          req.temp.bind toFloat = some t ∧ req.RH.bind toFloat = some rh ∧
          req.wind.bind toFloat = some w ∧
          toFloat (req.rain.getD (.jnum 0)) = some ra ∧
          r.features_used.FFMC = .jnum (est₁ t rh w ra).1 ∧
          r.features_used.DMC = .jnum (est₁ t rh w ra).2.1 ∧
          r.features_used.DC = .jnum (est₁ t rh w ra).2.2.1 ∧
          r.features_used.ISI = .jnum (est₁ t rh w ra).2.2.2) := by
  constructor
  · rintro ⟨f, m, c, i, hf, hm, hc, hi⟩
    constructor
    · unfold predictQ
      rw [resolveIndices_supplied est₁ req f m c i hf hm hc hi,
        resolveIndices_supplied est₂ req f m c i hf hm hc hi]
    · intro r hr
      rcases (predictQ_ok_iff mv dv est₁ mdl nM nD req r).mp hr with
        ⟨X_val, Y_val, me, de, ffmc, dmc, dc, isi, t, rh, w, ra, fq, dmq, dcq, ivq,
          pred, hX, hY, hEnc, hRes, hW, hC, hM, rfl⟩
      rw [resolveIndices_supplied est₁ req f m c i hf hm hc hi] at hRes
      cases hRes
      exact ⟨hf, hm, hc, hi⟩
  · intro hmiss r hr
    rcases (predictQ_ok_iff mv dv est₁ mdl nM nD req r).mp hr with
      ⟨X_val, Y_val, me, de, ffmc, dmc, dc, isi, t, rh, w, ra, fq, dmq, dcq, ivq,
        pred, hX, hY, hEnc, hRes, hW, hC, hM, rfl⟩
    obtain ⟨t', rh', w', ra', ht, hr', hw, hra, e1, e2, e3, e4⟩ :=
      resolveIndices_estimated est₁ req ffmc dmc dc isi hmiss hRes
    exact ⟨t', rh', w', ra', ht, hr', hw, hra, e1, e2, e3, e4⟩

/-- Witness for index_gate_all_or_nothing: with all four indices supplied
the prediction does not change when the estimator is replaced by a
constant-zero estimator, and features_used echoes the supplied FFMC. -/
theorem index_gate_all_or_nothing_witness :
    (predictQ monthClasses dayClasses estimate_fire_indexes (constModel 5) "oct" "sun"
        reqVerbatim =
      predictQ monthClasses dayClasses (fun _ _ _ _ => (0, 0, 0, 0)) (constModel 5)
        "oct" "sun" reqVerbatim) ∧
    reqVerbatim.FFMC = some okVerbatim.features_used.FFMC :=
  ⟨((index_gate_all_or_nothing monthClasses dayClasses estimate_fire_indexes
      (fun _ _ _ _ => (0, 0, 0, 0)) (constModel 5) "oct" "sun" reqVerbatim).1
      ⟨.jnum 85, .jnum 50, .jnum 300, .jnum 10, rfl, rfl, rfl, rfl⟩).1,
    (((index_gate_all_or_nothing monthClasses dayClasses estimate_fire_indexes
      (fun _ _ _ _ => (0, 0, 0, 0)) (constModel 5) "oct" "sun" reqVerbatim).1
      ⟨.jnum 85, .jnum 50, .jnum 300, .jnum 10, rfl, rfl, rfl, rfl⟩).2 okVerbatim
      (by with_unfolding_all rfl)).1⟩

/-- Claim C10: every successful prediction passes the model a feature
vector of exactly 12 values in the fixed order X, Y, encoded month,
encoded day, FFMC, DMC, DC, ISI, temp, RH, wind, rain, with the defaults
X=5, Y=5, temp=20.0, RH=40.0, wind=1.0, rain=0.0 filling absent optional
fields. -/
theorem feature_vector_layout (mv dv : List String)
    (est : ℚ → ℚ → ℚ → ℚ → ℚ × ℚ × ℚ × ℚ) (mdl : List ℚ → Except String Int)
    (nM nD : String) (req : Request) (r : PredictOk)
    (h : predictQ mv dv est mdl nM nD req = .ok r) :
    r.features.length = 12 ∧
    r.features[0]? = some (r.features_used.X : ℚ) ∧
    r.features[1]? = some (r.features_used.Y : ℚ) ∧
    r.features[2]? = some (r.features_used.month_enc : ℚ) ∧
    r.features[3]? = some (r.features_used.day_enc : ℚ) ∧
    r.features[4]? = toFloat r.features_used.FFMC ∧
    r.features[5]? = toFloat r.features_used.DMC ∧
    r.features[6]? = toFloat r.features_used.DC ∧
    r.features[7]? = toFloat r.features_used.ISI ∧
    r.features[8]? = some r.features_used.temp ∧
    r.features[9]? = some r.features_used.RH ∧
    r.features[10]? = some r.features_used.wind ∧
    r.features[11]? = some r.features_used.rain ∧
    (req.X = none → r.features_used.X = 5) ∧
    (req.Y = none → r.features_used.Y = 5) ∧
    (req.temp = none → r.features_used.temp = 20) ∧
    (req.RH = none → r.features_used.RH = 40) ∧
    (req.wind = none → r.features_used.wind = 1) ∧
    (req.rain = none → r.features_used.rain = 0) := by
  rcases (predictQ_ok_iff mv dv est mdl nM nD req r).mp h with
    ⟨X_val, Y_val, me, de, ffmc, dmc, dc, isi, t, rh, w, ra, f, dm, dcv, iv, pred,
      hX, hY, hEnc, hRes, hW, hC, hM, rfl⟩
  obtain ⟨c1, c2, c3, c4⟩ := coerceIndexFloats_some _ _ _ _ _ _ _ _ hC
  obtain ⟨w1, w2, w3, w4⟩ := weatherDefaults_some _ _ _ _ _ hW
  refine ⟨rfl, rfl, rfl, rfl, rfl, c1.symm, c2.symm, c3.symm, c4.symm,
    rfl, rfl, rfl, rfl, ?_, ?_, ?_, ?_, ?_, ?_⟩
  · intro hnone
    rw [hnone] at hX
    have h5 : toInt ((none : Option JVal).getD (.jnum 5)) = some 5 := by
      with_unfolding_all rfl
    rw [h5] at hX
    injection hX with hx
    exact hx.symm
  · intro hnone
    rw [hnone] at hY
    have h5 : toInt ((none : Option JVal).getD (.jnum 5)) = some 5 := by
      with_unfolding_all rfl
    rw [h5] at hY
    injection hY with hy
    exact hy.symm
  · intro hnone
    rw [hnone] at w1
    have h20 : toFloat ((none : Option JVal).getD (.jnum 20)) = some 20 := rfl
    rw [h20] at w1
    injection w1 with hw
    exact hw.symm
  · intro hnone
    rw [hnone] at w2
    have h40 : toFloat ((none : Option JVal).getD (.jnum 40)) = some 40 := rfl
    rw [h40] at w2
    injection w2 with hw
    exact hw.symm
  · intro hnone
    rw [hnone] at w3
    have h1 : toFloat ((none : Option JVal).getD (.jnum 1)) = some 1 := rfl
    rw [h1] at w3
    injection w3 with hw
    exact hw.symm
  · intro hnone
    rw [hnone] at w4
    have h0 : toFloat ((none : Option JVal).getD (.jnum 0)) = some 0 := rfl
    rw [h0] at w4
    injection w4 with hw
    exact hw.symm

/-- Witness for feature_vector_layout at a concrete successful run. -/
theorem feature_vector_layout_witness : okVerbatim.features.length = 12 :=
  (feature_vector_layout monthClasses dayClasses estimate_fire_indexes (constModel 5)
    "oct" "sun" reqVerbatim okVerbatim (by with_unfolding_all rfl)).1

/-- Claim C5 counterexample: the request reqMonthOnly supplies month "aug"
(vocabulary ordinal 1) but no day; the encoded month that reaches the
feature vector is 10, the ordinal of the current UTC month "oct", so the
supplied month is NOT used for encoding when day is absent. -/
theorem supplied_month_ignored_when_day_absent :
    (predictQ monthClasses dayClasses estimate_fire_indexes (constModel 5) "oct" "sun"
        reqMonthOnly).map (fun r => r.features_used.month_enc) = .ok 10 ∧
    encodeOne monthClasses (.jstr "aug") = some 1 ∧ (10 : Int) ≠ 1 := by
  refine ⟨by with_unfolding_all rfl, by with_unfolding_all rfl, by decide⟩

/-- Claim C5 (amended): the month/day defaults are all-or-nothing — if
either field is absent, BOTH are replaced by the current UTC month and
weekday abbreviations; the supplied values are used only when both fields
are present. -/
theorem month_day_default_all_or_nothing (nM nD : String) (m d : Option JVal) :
    ((m = none ∨ d = none) → resolveMonthDay nM nD m d = (.jstr nM, .jstr nD)) ∧
    (∀ mval dval, m = some mval → d = some dval →
      resolveMonthDay nM nD m d = (mval, dval)) := by
  constructor
  · intro hmd
    rcases m with _ | mv <;> rcases d with _ | dv
    · rfl
    · rfl
    · rfl
    · rcases hmd with hh | hh <;> exact Option.noConfusion hh
  · rintro mval dval rfl rfl
    rfl

/-- Witness for month_day_default_all_or_nothing: a supplied month "aug"
with an absent day is replaced wholesale by the now-strings, and two
supplied fields pass through. -/
theorem month_day_default_all_or_nothing_witness :
    resolveMonthDay "oct" "sun" (some (.jstr "aug")) none =
      (.jstr "oct", .jstr "sun") ∧
    resolveMonthDay "oct" "sun" (some (.jstr "aug")) (some (.jstr "mon")) =
      (.jstr "aug", .jstr "mon") :=
  ⟨(month_day_default_all_or_nothing "oct" "sun" (some (.jstr "aug")) none).1
      (Or.inr rfl),
   (month_day_default_all_or_nothing "oct" "sun" (some (.jstr "aug"))
      (some (.jstr "mon"))).2 (.jstr "aug") (.jstr "mon") rfl rfl⟩

theorem lookupIdx_lt_length (vocab : List String) (s : String) (n : Nat)
    (h : lookupIdx vocab s = some n) : n < vocab.length := by
  induction vocab generalizing n with
  | nil => exact Option.noConfusion h
  | cons v rest ih =>
    unfold lookupIdx at h
    by_cases hv : v = s
    · rw [if_pos hv] at h
      injection h with h
      subst h
      simp
    · rw [if_neg hv] at h
      rcases hl : lookupIdx rest s with _ | k
      · rw [hl] at h
        exact Option.noConfusion h
      · rw [hl] at h
        injection h with h
        subst h
        have := ih k hl
        simp
        omega

/-- Claim C7 counterexample: passing month as the integer 99 is not
rejected: the prediction succeeds and the encoded month ordinal 99 reaches
the model although the vocabulary has only 12 labels. -/
theorem int_month_bypasses_vocabulary :
    (predictQ monthClasses dayClasses estimate_fire_indexes (constModel 5) "oct" "sun"
        reqIntMonth99).map (fun r => r.features_used.month_enc) = .ok 99 ∧
    monthClasses.length = 12 ∧ ¬ ((99 : Int) < 12) := by
  refine ⟨by with_unfolding_all rfl, rfl, by decide⟩

/-- Claim C7 (amended): a textual month/day label is encoded to an ordinal
that does lie within the vocabulary size, but an integer month/day is
passed through unchanged (truncated by int()) with no bounds check, so an
out-of-vocabulary integer silently reaches the model. -/
theorem encode_ordinal_bounds (vocab : List String) :
    (∀ q : ℚ, encodeOne vocab (.jnum q) = some (qtrunc q)) ∧
    (∀ s e, encodeOne vocab (.jstr s) = some e →
      0 ≤ e ∧ e < vocab.length) := by
  constructor
  · intro q
    rfl
  · intro s e h
    unfold encodeOne at h
    dsimp only at h
    rcases hl : lookupIdx vocab s with _ | n
    · rw [hl] at h
      exact Option.noConfusion h
    · rw [hl] at h
      injection h with h
      subst h
      have hn := lookupIdx_lt_length vocab s n hl
      exact ⟨Int.ofNat_nonneg n, Int.ofNat_lt.mpr hn⟩

/-- Witness for encode_ordinal_bounds: integer 99 passes through, and the
in-vocabulary label "aug" encodes to 1, inside the 12-label bound. -/
theorem encode_ordinal_bounds_witness :
    encodeOne monthClasses (.jnum 99) = some (qtrunc 99) ∧
    (0 ≤ (1 : Int) ∧ (1 : Int) < monthClasses.length) :=
  ⟨(encode_ordinal_bounds monthClasses).1 99,
   (encode_ordinal_bounds monthClasses).2 "aug" 1 (by with_unfolding_all rfl)⟩

theorem weatherDefaults_of_isSome (req : Request)
    (hT : (toFloat (req.temp.getD (.jnum 20))).isSome = true)
    (hR : (toFloat (req.RH.getD (.jnum 40))).isSome = true)
    (hW : (toFloat (req.wind.getD (.jnum 1))).isSome = true)
    (hRa : (toFloat (req.rain.getD (.jnum 0))).isSome = true) :
    (weatherDefaults req).isSome = true := by
  obtain ⟨t, ht⟩ := Option.isSome_iff_exists.mp hT
  obtain ⟨r, hr⟩ := Option.isSome_iff_exists.mp hR
  obtain ⟨w, hw⟩ := Option.isSome_iff_exists.mp hW
  obtain ⟨ra, hra⟩ := Option.isSome_iff_exists.mp hRa
  unfold weatherDefaults
  rw [ht, hr, hw, hra]
  rfl

theorem coerceIndexFloats_of_isSome (a b c d : JVal)
    (ha : (toFloat a).isSome = true) (hb : (toFloat b).isSome = true)
    (hc : (toFloat c).isSome = true) (hd : (toFloat d).isSome = true) :
    (coerceIndexFloats a b c d).isSome = true := by
  obtain ⟨f, hf⟩ := Option.isSome_iff_exists.mp ha
  obtain ⟨m, hm⟩ := Option.isSome_iff_exists.mp hb
  obtain ⟨dcv, hdc⟩ := Option.isSome_iff_exists.mp hc
  obtain ⟨iv, hi⟩ := Option.isSome_iff_exists.mp hd
  unfold coerceIndexFloats
  rw [hf, hm, hdc, hi]
  rfl

theorem resolveIndices_ok_floats (est : ℚ → ℚ → ℚ → ℚ → ℚ × ℚ × ℚ × ℚ)
    (req : Request) (a b c d : JVal)
    (hres : resolveIndices est req = .ok (a, b, c, d))
    (hF : (toFloat (req.FFMC.getD (.jnum 0))).isSome = true)
    (hD : (toFloat (req.DMC.getD (.jnum 0))).isSome = true)
    (hC : (toFloat (req.DC.getD (.jnum 0))).isSome = true)
    (hI : (toFloat (req.ISI.getD (.jnum 0))).isSome = true) :
    (toFloat a).isSome = true ∧ (toFloat b).isSome = true ∧
    (toFloat c).isSome = true ∧ (toFloat d).isSome = true := by
  unfold resolveIndices at hres
  split at hres
  · rename_i hf hm hc hi
    cases hres
    rw [hf] at hF
    rw [hm] at hD
    rw [hc] at hC
    rw [hi] at hI
    exact ⟨hF, hD, hC, hI⟩
  · obtain ⟨t, rh, w, ra, _, _, _, _, e1, e2, e3, e4⟩ :=
      estimateFromWeather_ok est req a b c d hres
    subst e1; subst e2; subst e3; subst e4
    exact ⟨rfl, rfl, rfl, rfl⟩

/-- Claim C6 counterexample: the request reqBadX, whose X field is the
string "abc", escapes predict as an unhandled exception (int(X) at app.py
line 105 sits outside every try block), so not every coercion error is
converted to a structured failure response. -/
theorem uncoercible_X_escapes :
    ¬ (∀ req : Request, ∀ site : String,
        predictQ monthClasses dayClasses estimate_fire_indexes (constModel 5)
          "oct" "sun" req ≠ .error (.unhandled site)) := by
  intro hall
  exact hall reqBadX "int(X)" (by with_unfolding_all rfl)

/-- Claim C6 (amended): the encoding, meteorology and model errors are
recovered as structured failures, but the coercions of X, Y, the index
values and the echoed weather values sit outside every try block, so
errors there are not recovered (a non-numeric X escapes, see the
counterexample); for every request whose supplied values for those fields
are coercible (wellFormed), no unhandled exception escapes predict.  This
is sufficiency only: a request outside wellFormed may still succeed, e.g.
when the estimation branch overwrites an uncoercible supplied index
before float() reaches it. -/
theorem wellformed_no_unhandled (mv dv : List String)
    (est : ℚ → ℚ → ℚ → ℚ → ℚ × ℚ × ℚ × ℚ) (mdl : List ℚ → Except String Int)
    (nM nD : String) (req : Request) (h : wellFormed req = true) :
    ∀ site : String, predictQ mv dv est mdl nM nD req ≠ .error (.unhandled site) := by
  intro site hbad
  unfold wellFormed at h
  simp only [Bool.and_eq_true] at h
  obtain ⟨⟨⟨⟨⟨⟨⟨⟨⟨hX, hY⟩, hF⟩, hD⟩, hC⟩, hI⟩, hT⟩, hR⟩, hW2⟩, hRa⟩ := h
  obtain ⟨xv, hxv⟩ := Option.isSome_iff_exists.mp hX
  obtain ⟨yv, hyv⟩ := Option.isSome_iff_exists.mp hY
  unfold predictQ at hbad
  rcases henc : encode_month_day mv dv (resolveMonthDay nM nD req.month req.day).1
      (resolveMonthDay nM nD req.month req.day).2 with _ | md
  · simp only [hxv, hyv, henc] at hbad
    exact absurd hbad (by simp)
  rcases md with ⟨me, de⟩
  rcases hres : resolveIndices est req with e | v
  · have he := resolveIndices_error est req e hres
    subst he
    simp only [hxv, hyv, henc, hres] at hbad
    exact absurd hbad (by simp)
  rcases v with ⟨a, b, c, d⟩
  have hwd := weatherDefaults_of_isSome req hT hR hW2 hRa
  obtain ⟨⟨t, rh, w, ra⟩, hwde⟩ := Option.isSome_iff_exists.mp hwd
  obtain ⟨f1, f2, f3, f4⟩ := resolveIndices_ok_floats est req a b c d hres hF hD hC hI
  have hcf := coerceIndexFloats_of_isSome a b c d f1 f2 f3 f4
  obtain ⟨⟨q1, q2, q3, q4⟩, hcfe⟩ := Option.isSome_iff_exists.mp hcf
  rcases hm : mdl (buildFeatures xv yv me de q1 q2 q3 q4 t rh w ra) with e2 | pr
  · simp only [hxv, hyv, henc, hres, hwde, hcfe, hm] at hbad
    exact absurd hbad (by simp)
  · simp only [hxv, hyv, henc, hres, hwde, hcfe, hm] at hbad
    exact absurd hbad (by simp)

/-- Witness for wellformed_no_unhandled at a concrete well-formed
request. -/
theorem wellformed_no_unhandled_witness :
    wellFormed reqVerbatim = true ∧
    predictQ monthClasses dayClasses estimate_fire_indexes (constModel 5) "oct" "sun"
        reqVerbatim ≠ .error (.unhandled "int(X)") :=
  ⟨by with_unfolding_all rfl,
   wellformed_no_unhandled monthClasses dayClasses estimate_fire_indexes (constModel 5)
     "oct" "sun" reqVerbatim (by with_unfolding_all rfl) "int(X)"⟩

/-- Claim C8 counterexample: "xyz" is not in the month vocabulary, yet the
request reqUnknownMonthNoDay (month "xyz", day absent) succeeds and the
model is called: because day is absent, the unknown month is replaced by
the current UTC month before encoding, so no UnknownCategoryError is
raised for this request. -/
theorem unknown_month_with_absent_day_succeeds :
    lookupIdx monthClasses "xyz" = none ∧
    (predictQ monthClasses dayClasses estimate_fire_indexes (constModel 5) "oct" "sun"
        reqUnknownMonthNoDay).map (fun r => r.score) = .ok 5 :=
  ⟨rfl, by with_unfolding_all rfl⟩

/-- Claim C8 (amended): for a request whose X/Y coerce and whose month and
day are both present, a textual month or day label outside the encoder
vocabulary makes predict fail with the structured encoding error, and the
outcome is independent of the model, which is therefore never called. -/
theorem unknown_label_fails_without_model (mv dv : List String)
    (est : ℚ → ℚ → ℚ → ℚ → ℚ × ℚ × ℚ × ℚ)
    (mdl mdl' : List ℚ → Except String Int) (nM nD : String) (req : Request)
    (mval dval : JVal)
    (hX : (toInt (req.X.getD (.jnum 5))).isSome = true)
    (hY : (toInt (req.Y.getD (.jnum 5))).isSome = true)
    (hm : req.month = some mval) (hd : req.day = some dval)
    (hbad : (∃ s, mval = .jstr s ∧ lookupIdx mv s = none) ∨
            (∃ s, dval = .jstr s ∧ lookupIdx dv s = none)) :
    predictQ mv dv est mdl nM nD req = .error .encodingFailed ∧
    predictQ mv dv est mdl nM nD req = predictQ mv dv est mdl' nM nD req := by
  have hrm : resolveMonthDay nM nD req.month req.day = (mval, dval) := by
    rw [hm, hd]
    rfl
  have henc : encode_month_day mv dv mval dval = none := by
    rcases hbad with ⟨s, rfl, hs⟩ | ⟨s, rfl, hs⟩
    · unfold encode_month_day encodeOne
      rcases encodeOne dv dval with _ | dd <;> simp [hs]
    · unfold encode_month_day encodeOne
      rcases hmm : (match mval with
          | .jstr s => (lookupIdx mv s).map Int.ofNat
          | _ => toInt mval) with _ | mm <;> simp [hs]
  obtain ⟨xv, hxv⟩ := Option.isSome_iff_exists.mp hX
  obtain ⟨yv, hyv⟩ := Option.isSome_iff_exists.mp hY
  have main : ∀ mm : List ℚ → Except String Int,
      predictQ mv dv est mm nM nD req = .error .encodingFailed := by
    intro mm
    unfold predictQ
    simp only [hxv, hyv, hrm, henc]
  exact ⟨main mdl, (main mdl).trans (main mdl').symm⟩

/-- Witness for unknown_label_fails_without_model at the concrete request
reqUnknownMonth. -/
theorem unknown_label_fails_without_model_witness :
    predictQ monthClasses dayClasses estimate_fire_indexes (constModel 5) "oct" "sun"
      reqUnknownMonth = .error .encodingFailed :=
  (unknown_label_fails_without_model monthClasses dayClasses estimate_fire_indexes
    (constModel 5) (constModel 9) "oct" "sun" reqUnknownMonth (.jstr "xyz")
    (.jstr "sun") (by with_unfolding_all rfl) (by with_unfolding_all rfl) rfl rfl
    (Or.inl ⟨"xyz", rfl, rfl⟩)).1

/-- Claim C9 counterexample: reqBadRain has no indices, coercible
temp/RH/wind and rain = "x"; predict fails with the missing-meteorology
error even though temperature, RH and wind are all derivable, because the
uncaught float("x") on rain is caught by the same except block. -/
theorem bad_rain_triggers_missing_meteorology :
    predictQ monthClasses dayClasses estimate_fire_indexes (constModel 5) "oct" "sun"
      reqBadRain = .error .missingMeteorology ∧
    (reqBadRain.temp.bind toFloat).isSome = true ∧
    (reqBadRain.RH.bind toFloat).isSome = true ∧
    (reqBadRain.wind.bind toFloat).isSome = true :=
  ⟨by with_unfolding_all rfl, by with_unfolding_all rfl,
   by with_unfolding_all rfl, by with_unfolding_all rfl⟩

/-- Claim C9 (amended): predict fails with the missing-meteorology error
exactly when X/Y coerce, month/day encoding succeeds, at least one index
is absent, and the weather coercions of the estimation branch fail — that
is, temp, RH and wind are not all derivable OR a supplied rain value is
uncoercible.  An absent rain field is never a cause: it defaults to 0.0,
so with rain absent derivability reduces to temp/RH/wind alone. -/
theorem missing_meteorology_characterized (mv dv : List String)
    (est : ℚ → ℚ → ℚ → ℚ → ℚ × ℚ × ℚ × ℚ) (mdl : List ℚ → Except String Int)
    (nM nD : String) (req : Request) :
    (predictQ mv dv est mdl nM nD req = .error .missingMeteorology ↔
      xyOk req = true ∧ encodeOk mv dv nM nD req = true ∧
      anyIndexMissing req = true ∧ weatherDerivable req = false) ∧
    (req.rain = none →
      weatherDerivable req =
        ((req.temp.bind toFloat).isSome && (req.RH.bind toFloat).isSome &&
          (req.wind.bind toFloat).isSome)) := by
  constructor
  · constructor
    · intro h
      unfold predictQ at h
      rcases hx : toInt (req.X.getD (.jnum 5)) with _ | xv
      · simp only [hx] at h
        exact absurd h (by simp)
      rcases hy : toInt (req.Y.getD (.jnum 5)) with _ | yv
      · simp only [hx, hy] at h
        exact absurd h (by simp)
      rcases henc : encode_month_day mv dv (resolveMonthDay nM nD req.month req.day).1
          (resolveMonthDay nM nD req.month req.day).2 with _ | md
      · simp only [hx, hy, henc] at h
        exact absurd h (by simp)
      rcases md with ⟨me, de⟩
      rcases hres : resolveIndices est req with e | v
      · have he := resolveIndices_error est req e hres
        subst he
        obtain ⟨hmiss, hwd⟩ := (resolveIndices_missing_iff est req).mp hres
        refine ⟨?_, ?_, hmiss, hwd⟩
        · unfold xyOk
          rw [hx, hy]
          rfl
        · unfold encodeOk
          rw [henc]
          rfl
      rcases v with ⟨a, b, c, d⟩
      rcases hwde : weatherDefaults req with _ | q
      · simp only [hx, hy, henc, hres, hwde] at h
        exact absurd h (by simp)
      rcases q with ⟨t, rh, w, ra⟩
      rcases hcfe : coerceIndexFloats a b c d with _ | p
      · simp only [hx, hy, henc, hres, hwde, hcfe] at h
        exact absurd h (by simp)
      rcases p with ⟨q1, q2, q3, q4⟩
      rcases hmm : mdl (buildFeatures xv yv me de q1 q2 q3 q4 t rh w ra) with e2 | pr
      · simp only [hx, hy, henc, hres, hwde, hcfe, hmm] at h
        exact absurd h (by simp)
      · simp only [hx, hy, henc, hres, hwde, hcfe, hmm] at h
        exact absurd h (by simp)
    · rintro ⟨hxy, hencok, hmiss, hwd⟩
      unfold xyOk at hxy
      rw [Bool.and_eq_true] at hxy
      obtain ⟨hX, hY⟩ := hxy
      obtain ⟨xv, hxv⟩ := Option.isSome_iff_exists.mp hX
      obtain ⟨yv, hyv⟩ := Option.isSome_iff_exists.mp hY
      unfold encodeOk at hencok
      obtain ⟨⟨me, de⟩, hence⟩ := Option.isSome_iff_exists.mp hencok
      have hres : resolveIndices est req = .error .missingMeteorology :=
        (resolveIndices_missing_iff est req).mpr ⟨hmiss, hwd⟩
      unfold predictQ
      simp only [hxv, hyv, hence, hres]
  · intro hnone
    unfold weatherDerivable
    rw [hnone]
    have h0 : (toFloat ((none : Option JVal).getD (.jnum 0))).isSome = true := rfl
    rw [h0, Bool.and_true]

/-- Witness for missing_meteorology_characterized: applying the
characterization to reqNoWeather, whose indices and weather are all
absent, yields the concrete missing-meteorology failure and the
rain-absent reduction. -/
theorem missing_meteorology_characterized_witness :
    predictQ monthClasses dayClasses estimate_fire_indexes (constModel 5) "oct" "sun"
      reqNoWeather = .error .missingMeteorology ∧
    weatherDerivable reqNoWeather =
      ((reqNoWeather.temp.bind toFloat).isSome && (reqNoWeather.RH.bind toFloat).isSome &&
        (reqNoWeather.wind.bind toFloat).isSome) :=
  ⟨((missing_meteorology_characterized monthClasses dayClasses estimate_fire_indexes
      (constModel 5) "oct" "sun" reqNoWeather).1).mpr
      ⟨by with_unfolding_all rfl, by with_unfolding_all rfl, rfl, rfl⟩,
   (missing_meteorology_characterized monthClasses dayClasses estimate_fire_indexes
      (constModel 5) "oct" "sun" reqNoWeather).2 rfl⟩

end ForestFire
